import Mathlib

/-!
# SpectraTales — verification of the storybook-generator core

Shallow embedding of the SpectraTales storybook generator (App.tsx third
revision, services/geminiService.ts, services/storageService.ts) and proofs
about its image-sequencing loop, per-page regeneration, persistence layer and
model-response handling.

Conventions of the embedding:
* TypeScript numbers carrying page ids and timestamps become `Int`.
* `undefined` / optional fields become `Option`.
* An `async` function that may reject becomes a function into `Except String`.
* External effects (the generative-model calls, the IndexedDB requests) become
  explicit parameters: an oracle giving the outcome of each call.
-/

namespace SpectraTales

/-- `CharacterBlueprint` from types.ts. -/
structure CharacterBlueprint where
  age : Int
  hair : String
  skin_tone : String
  clothing : String
  expression_style : String
  accessories : Option String
deriving Repr, DecidableEq

/-- `StoryPage` from types.ts. `image_url` and `error` are optional fields. -/
structure StoryPage where
  id : Int
  text : String
  action_description : String
  image_url : Option String
  is_generating : Bool
  error : Option String
deriving Repr, DecidableEq

/-- `StoryboardData` from types.ts. -/
structure StoryboardData where
  uid : String
  createdAt : Int
  title : String
  purpose : String
  character_blueprint : CharacterBlueprint
  visual_style_guide : String
  pages : List StoryPage
deriving Repr, DecidableEq

/-! ## Storage service (services/storageService.ts)

The IndexedDB object store is created with `keyPath: 'uid'`, so a record key
is the `uid` field of the stored storybook and `store.put` is insert-or-replace
by that key.  We model the store contents as a list of storybooks. -/

/-- `store.put(story)` on an object store keyed by `uid`: replace the record
whose key equals `story.uid` when one exists, otherwise add the record. -/
def dbPut (store : List StoryboardData) (story : StoryboardData) : List StoryboardData :=
  if store.any (fun h => h.uid = story.uid) then
    store.map (fun h => if h.uid = story.uid then story else h)
  else
    store ++ [story]

/-- The in-memory history update of the automatic persistence effect in
App.tsx: if a storybook with the same uid exists it is replaced in place,
otherwise the new storybook is prepended. -/
def updateHistory (story : StoryboardData) (prev : List StoryboardData) : List StoryboardData :=
  if prev.any (fun h => h.uid = story.uid) then
    prev.map (fun h => if h.uid = story.uid then story else h)
  else
    story :: prev

/-- The uids of a list of storybooks. -/
def uids (l : List StoryboardData) : List String :=
  l.map (fun h => h.uid)

/-- The sort of `getHistoryFromDB`: the JS comparator
`(a, b) => b.createdAt - a.createdAt` orders by `createdAt` descending. -/
def sortByNewest (l : List StoryboardData) : List StoryboardData :=
  l.mergeSort (fun a b => decide (b.createdAt ≤ a.createdAt))

/-- The external effects `getHistoryFromDB` depends on: the outcome of
`initDB` (opening the database) and the outcome of the `getAll` read request
on the store, each of which may fail. -/
structure DBEnv where
  openResult : Except String Unit
  readResult : Except String (List StoryboardData)
deriving Repr

/-- `getHistoryFromDB` from storageService.ts.

Control flow of the source: `await initDB()` is inside the `try`, so a
rejection of the open is caught and the `catch` returns `[]`.  The read is
performed inside a `new Promise` that the function returns WITHOUT `await`;
in JavaScript the rejection of a promise that is returned (rather than
awaited) from inside a `try` block is not intercepted by the surrounding
`catch`, so a failing read request propagates to the caller.  On success the
results are sorted newest first. -/
def getHistoryFromDB (env : DBEnv) : Except String (List StoryboardData) :=
  match env.openResult with
  | .error _ => .ok []
  | .ok _ =>
    match env.readResult with
    | .error e => .error e
    | .ok results => .ok (sortByNewest results)

/-! ## Image sequencer (App.tsx, `generateImagesSequence`)

The loop walks `initialStory.pages` in order, keeps a local
`generatedImagesMap` from page id to generated image, builds a reference list
for each page, awaits one `generatePageImage` call per page, and updates the
React story state through `setStory(prev => ...)` on success or failure.

The outcome of each model call is an oracle `gen : Nat → Option String`
(call index to `some url` when the promise resolves, `none` when it
rejects).  The embedding returns the requests issued in order together with
the trajectory of story states: entry `k` of the state list is the story
before page `k` is processed, and the last entry is the final story. -/

/-- One request issued to `generatePageImage` by the sequencer: the page id,
the scene description (`action_description`), the global style prompt
(`visual_style_guide`) and the visual reference image list. -/
structure ImgRequest where
  pageId : Int
  desc : String
  globalPrompt : String
  refs : List String
deriving Repr, DecidableEq

/-- The empty `generatedImagesMap`. -/
def emptyMap : Int → Option String := fun _ => none

/-- `generatedImagesMap.set(k, v)`. -/
def mapSet (m : Int → Option String) (k : Int) (v : String) : Int → Option String :=
  fun j => if j = k then some v else m j

/-- First `refs.push` of the loop of `generateImagesSequence` (ANCHOR): the
image stored for `firstPageId` when `firstPageId` is defined, the map has an
image for it, and the current page id differs from it. -/
def anchorRef (firstPageId : Option Int) (m : Int → Option String) (pageId : Int) :
    List String :=
  match firstPageId with
  | some fid =>
    match m fid with
    | some url => if pageId = fid then [] else [url]
    | none => []
  | none => []

/-- Second `refs.push` of the loop of `generateImagesSequence` (CONTEXT): the
image stored for `page.id - 1` when the map has one and that id is not
`firstPageId` (an undefined `firstPageId` never equals it). -/
def contextRef (firstPageId : Option Int) (m : Int → Option String) (pageId : Int) :
    List String :=
  match m (pageId - 1) with
  | some url => if firstPageId = some (pageId - 1) then [] else [url]
  | none => []

/-- The reference list built inside the loop of `generateImagesSequence`:
the ANCHOR push followed by the CONTEXT push. -/
def buildRefs (firstPageId : Option Int) (m : Int → Option String) (pageId : Int) :
    List String :=
  anchorRef firstPageId m pageId ++ contextRef firstPageId m pageId

/-- The success update of the sequencer: `setStory(prev => ...)` guarded by
`prev.uid !== initialStory.uid`, setting `image_url` and clearing
`is_generating` on every page whose id matches. -/
def stepSuccess (uid0 : String) (pid : Int) (url : String) (st : StoryboardData) :
    StoryboardData :=
  if st.uid = uid0 then
    { st with pages := st.pages.map (fun p =>
        if p.id = pid then { p with image_url := some url, is_generating := false } else p) }
  else st

/-- The catch branch of the sequencer: `setStory(prev => ...)` guarded by
`prev.uid !== initialStory.uid`, clearing `is_generating` and setting
`error` to "Failed to load image" on every page whose id matches. -/
def stepFailure (uid0 : String) (pid : Int) (st : StoryboardData) : StoryboardData :=
  if st.uid = uid0 then
    { st with pages := st.pages.map (fun p =>
        if p.id = pid then { p with is_generating := false, error := some "Failed to load image" }
        else p) }
  else st

/-- The body of the `for (const page of initialStory.pages)` loop, recursing
over the remaining pages with the call index, the `generatedImagesMap` and
the current story state.  Returns the requests issued and the state
trajectory (head = state on entry, last = final state). -/
def seqLoop (uid0 gp : String) (fid : Option Int) (gen : Nat → Option String) :
    List StoryPage → Nat → (Int → Option String) → StoryboardData →
    List ImgRequest × List StoryboardData
  | [], _, _, st => ([], [st])
  | page :: rest, i, m, st =>
    let refs := buildRefs fid m page.id
    let req : ImgRequest := ⟨page.id, page.action_description, gp, refs⟩
    match gen i with
    | some url =>
      let out := seqLoop uid0 gp fid gen rest (i + 1) (mapSet m page.id url)
        (stepSuccess uid0 page.id url st)
      (req :: out.1, st :: out.2)
    | none =>
      let out := seqLoop uid0 gp fid gen rest (i + 1) m (stepFailure uid0 page.id st)
      (req :: out.1, st :: out.2)

/-- `generateImagesSequence(initialStory, comp)` run against the outcome
oracle `gen`.  `firstPageId` is `initialStory.pages[0]?.id`, the map starts
empty, and the loop starts from the initial story. -/
def generateImagesSequence (initialStory : StoryboardData) (gen : Nat → Option String) :
    List ImgRequest × List StoryboardData :=
  seqLoop initialStory.uid initialStory.visual_style_guide
    ((initialStory.pages.head?).map (fun p => p.id)) gen
    initialStory.pages 0 emptyMap initialStory

/-- The contents of `generatedImagesMap` after the loop has processed a given
list of pages with call indices starting at `i`: each successful call stores
its image under the id of its page, later writes overriding earlier ones. -/
def buildMap (gen : Nat → Option String) :
    List StoryPage → Nat → (Int → Option String) → Int → Option String
  | [], _, m => m
  | p :: rest, i, m =>
    match gen i with
    | some url => buildMap gen rest (i + 1) (mapSet m p.id url)
    | none => buildMap gen rest (i + 1) m

/-! ## Per-page regeneration (App.tsx, `handleRegenerateImage`) -/

/-- The loading update at the start of `handleRegenerateImage`: every page
whose id matches gets `is_generating := true` and its error cleared. -/
def regenLoading (story : StoryboardData) (pageId : Int) : StoryboardData :=
  { story with pages := story.pages.map (fun p =>
      if p.id = pageId then { p with is_generating := true, error := none } else p) }

/-- `handleRegenerateImage(pageId)` on a present story, with the outcome of
the `generatePageImage` call as an oracle (`some url` on resolve, `none` on
reject).  The loading state is set first; if no page has the id the handler
returns early (leaving the loading update, which touched nothing); otherwise
the success or error update is applied to the current state. -/
def handleRegenerateImage (story : StoryboardData) (pageId : Int) (outcome : Option String) :
    StoryboardData :=
  let st1 := regenLoading story pageId
  match story.pages.find? (fun p => p.id = pageId) with
  | none => st1
  | some _ =>
    match outcome with
    | some url =>
      { st1 with pages := st1.pages.map (fun p =>
          if p.id = pageId then { p with image_url := some url, is_generating := false } else p) }
    | none =>
      { st1 with pages := st1.pages.map (fun p =>
          if p.id = pageId then { p with is_generating := false, error := some "Retry failed" }
          else p) }

/-- First `refs.push` of `handleRegenerateImage` (Anchor Reference): the
first page image when truthy (present and nonempty, JS truthiness) and the
first page is not the page being regenerated. -/
def regenAnchor (story : StoryboardData) (pageId : Int) : List String :=
  match story.pages.head? with
  | some fp =>
    match fp.image_url with
    | some u => if u != "" && fp.id != pageId then [u] else []
    | none => []
  | none => []

/-- Second `refs.push` of `handleRegenerateImage` (Previous Page Reference):
the image of the page found by id `pageId - 1` when truthy and its id
differs from the first page id (an absent first page never equals it). -/
def regenContext (story : StoryboardData) (pageId : Int) : List String :=
  match story.pages.find? (fun p => p.id = pageId - 1) with
  | some pp =>
    match pp.image_url with
    | some u =>
      if u != "" && (match story.pages.head? with | some fp => pp.id != fp.id | none => true)
      then [u] else []
    | none => []
  | none => []

/-- The reference list collected by `handleRegenerateImage` from the current
story state: the anchor push followed by the previous-page push. -/
def regenRefs (story : StoryboardData) (pageId : Int) : List String :=
  regenAnchor story pageId ++ regenContext story pageId

/-- The reference list the specification describes for page `k` of a story
(the page record being `p`): among the images generated so far — those of the
already-processed pages whose call succeeded, a later success overriding an
earlier one of equal id — the first page image (when it has been generated
and page `k` is not the first page) followed by the image of the immediately
preceding page, looked up by page id minus one (when it has been generated
and is not the first page image). -/
def claimRefs (story : StoryboardData) (gen : Nat → Option String) (k : Nat)
    (p : StoryPage) : List String :=
  let generated := buildMap gen (story.pages.take k) 0 emptyMap
  let firstId := (story.pages.head?).map (fun q => q.id)
  let anchor : List String :=
    match firstId with
    | some fid =>
      if p.id ≠ fid then
        match generated fid with
        | some u => [u]
        | none => []
      else []
    | none => []
  let context : List String :=
    match generated (p.id - 1) with
    | some u => if firstId ≠ some (p.id - 1) then [u] else []
    | none => []
  anchor ++ context

/-! ### Sample data for concrete witnesses -/

/-- A sample character blueprint for concrete witnesses. -/
def sampleBlueprint : CharacterBlueprint :=
  { age := 6, hair := "brown", skin_tone := "light", clothing := "red shirt",
    expression_style := "clear", accessories := none }

/-- A sample page with the given id, not yet generated. -/
def samplePage (i : Int) : StoryPage :=
  { id := i, text := "Page text", action_description := "Wide shot of the room",
    image_url := none, is_generating := true, error := none }

/-- A sample storybook with the given uid, creation time and page ids. -/
def sampleStory (u : String) (t : Int) (ids : List Int) : StoryboardData :=
  { uid := u, createdAt := t, title := "Learning to Share", purpose := "Sharing",
    character_blueprint := sampleBlueprint,
    visual_style_guide := "Soft watercolor", pages := ids.map samplePage }

/-! ## Storyboard requester (geminiService.ts, `generateStoryboard`)

The model call and `JSON.parse` both run inside the `try` block, so a failure
of either is replaced by the fixed error.  The parsed object is spread into
the result first, then `uid` and `createdAt` are injected; TypeScript does
not check that the parsed object actually carries the storyboard fields, so
every field except the injected two may be absent. -/

/-- A page object as parsed from the model JSON response. -/
structure RawPage where
  id : Int
  text : String
  action_description : String
deriving Repr, DecidableEq

/-- The object a model response text parses to: every storyboard field may be
absent.  `JSON.parse` of the empty-object fallback text yields the object
with all fields absent. -/
structure ParsedStoryboard where
  title : Option String
  purpose : Option String
  character_blueprint : Option CharacterBlueprint
  visual_style_guide : Option String
  pages : Option (List RawPage)
deriving Repr, DecidableEq

/-- The empty JSON object. -/
def emptyParsed : ParsedStoryboard :=
  { title := none, purpose := none, character_blueprint := none,
    visual_style_guide := none, pages := none }

/-- The two-character empty-JSON-object text used as the parse fallback. -/
def emptyObjectText : String := "\x7b\x7d"

/-- The JavaScript expression `response.text` with the falsy fallback to the
empty-object text: an absent or empty response text is replaced. -/
def effectiveText (t : Option String) : String :=
  match t with
  | none => emptyObjectText
  | some s => if s = "" then emptyObjectText else s

/-- The object returned by `generateStoryboard`: the parsed response fields
spread first, then the injected `uid` and `createdAt`. -/
structure StoryboardResult where
  uid : String
  createdAt : Int
  title : Option String
  purpose : Option String
  character_blueprint : Option CharacterBlueprint
  visual_style_guide : Option String
  pages : Option (List RawPage)
deriving Repr, DecidableEq

/-- `generateStoryboard` from geminiService.ts, with its effects as
parameters: `callResult` is the outcome of `ai.models.generateContent`
(carrying the optional `.text` on success), `parse` is the `JSON.parse`
oracle, and `freshUid` / `now` are the generated uid and the current time
injected into the result. -/
def generateStoryboard (callResult : Except String (Option String))
    (parse : String → Except String ParsedStoryboard)
    (freshUid : String) (now : Int) : Except String StoryboardResult :=
  match callResult with
  | .error _ => .error "Failed to generate storyboard structure."
  | .ok t =>
    match parse (effectiveText t) with
    | .error _ => .error "Failed to generate storyboard structure."
    | .ok data =>
      .ok { uid := freshUid, createdAt := now, title := data.title,
            purpose := data.purpose, character_blueprint := data.character_blueprint,
            visual_style_guide := data.visual_style_guide, pages := data.pages }

/-- A concrete stand-in for `JSON.parse` that agrees with it on the
empty-object text (which parses to the empty object) and rejects anything
else, used for concrete counterexamples. -/
def jsonParseEmptyOnly : String → Except String ParsedStoryboard :=
  fun s => if s = emptyObjectText then .ok emptyParsed else .error "Unexpected token"

/-! ## Page image generation (geminiService.ts, `generatePageImage`) -/

/-- `VisualComplexity` from types.ts. -/
inductive VisualComplexity where
  | MINIMAL
  | BALANCED
  | RICH
deriving Repr, DecidableEq

/-- `styleConfig` of `generatePageImage`. -/
structure StyleConfig where
  globalPrompt : Option String
  blueprint : Option CharacterBlueprint
  complexity : VisualComplexity
deriving Repr, DecidableEq

/-- A character the JavaScript regex dot matches (anything but the four line
terminators). -/
def jsDotChar (c : Char) : Bool :=
  c != '\n' && c != '\r' && c != '\u2028' && c != '\u2029'

/-- The anchored data-URL regex applied to each reference URL, with `data:`
then two greedy one-or-more captures separated by the literal `;base64,`.
A match requires the text after `data:` to be free of line terminators
(every split writes it as mime, separator, data, so a line terminator would
land in a capture and no split can match), to contain the separator, and to
admit a split with both captures nonempty; greediness makes the first
capture maximal, i.e. the last such split is taken.  Returns the two capture
groups. -/
def dataUrlMatch (s : String) : Option (String × String) :=
  if s.startsWith "data:" && (s.drop 5).all jsDotChar then
    let pieces := (s.drop 5).splitOn ";base64,"
    let splits := (List.range pieces.length).filterMap (fun k =>
      if 1 ≤ k then
        let mime := String.intercalate ";base64," (pieces.take k)
        let data := String.intercalate ";base64," (pieces.drop k)
        if mime ≠ "" ∧ data ≠ "" then some (mime, data) else none
      else none)
    splits.getLast?
  else
    none

/-- Inline image data of a model response part. -/
structure InlineData where
  mimeType : String
  data : String
deriving Repr, DecidableEq

/-- A part of the image model response. -/
structure RespPart where
  inlineData : Option InlineData
deriving Repr, DecidableEq

/-- `response.candidates?.[0]?.content?.parts || []` of the image model
response, flattened through the optional chain into the part list. -/
structure ImgResponse where
  parts : List RespPart
deriving Repr, DecidableEq

/-- A part of the request sent to the image model: an inline reference image
or the text prompt. -/
inductive GenPart where
  | inlinePart (mimeType : String) (data : String)
  | textPart (text : String)
deriving Repr, DecidableEq

/-- The `[CHARACTER]` fallback paragraph built from the blueprint. -/
def blueprintDesc : Option CharacterBlueprint → String
  | some bp =>
    "[CHARACTER]\nChild, age " ++ toString bp.age ++ ", " ++ bp.hair ++ " hair, "
      ++ bp.skin_tone ++ " skin, wearing " ++ bp.clothing ++ "."
  | none => ""

/-- `baseDescription` of `generatePageImage`: the global style guide when
truthy (present and nonempty), else the blueprint fallback, else empty. -/
def baseDescription (cfg : StyleConfig) : String :=
  match cfg.globalPrompt with
  | some gp =>
    if gp != "" then "[VISUAL STYLE & CHARACTER ID (IMMUTABLE)]\n" ++ gp
    else blueprintDesc cfg.blueprint
  | none => blueprintDesc cfg.blueprint

/-- The GENERATION RULES paragraph of the prompt (template-literal
indentation normalized to single newlines). -/
def generationRulesText : String :=
  "**GENERATION RULES**:\n"
    ++ "1. **STYLE**: Follow [VISUAL STYLE] for art technique and character colors.\n"
    ++ "2. **COMPOSITION**: Follow [CURRENT SCENE] for the Camera Angle, Pose, and Background.\n"
    ++ "- IF the scene says \"Close-up\", you MUST generate a close-up.\n"
    ++ "- IF the scene says \"Wide shot\", you MUST generate a wide shot.\n"
    ++ "3. **INNER WORLD**: If described, clearly render visual metaphors for thoughts or emotions (e.g., thought bubbles, stylized worry lines, magical sparkles). These are critical for the child to understand what the character is feeling.\n"
    ++ "4. **INSPIRATION**: The image should spark curiosity. Use interesting lighting and details to make the world feel alive and magical, even for simple social stories."

/-- The REFERENCE IMAGE HANDLING paragraph appended when at least one
reference URL was supplied (appended even if none of them matched). -/
def referenceHandlingText : String :=
  "[REFERENCE IMAGE HANDLING]\n"
    ++ "- **IDENTITY**: The reference images define EXACTLY what the character looks like. Match the face, hair, and clothes perfectly.\n"
    ++ "- **ART STYLE**: Match the brush strokes, line weight, and color palette of the reference.\n"
    ++ "- **POSE**: DO NOT COPY THE POSE from the reference. The character must be performing the action described in [CURRENT SCENE SPECIFICATION].\n"
    ++ "- **BACKGROUND**: DO NOT COPY THE BACKGROUND. Use the setting described in [CURRENT SCENE SPECIFICATION]."

/-- The full text prompt of `generatePageImage`. -/
def finalPromptText (cfg : StyleConfig) (pageDesc : String) (hasRefs : Bool) : String :=
  let core := "**TASK**: Generate a consistent, inspiring children's book illustration.\n\n"
    ++ baseDescription cfg
    ++ "\n\n[CURRENT SCENE SPECIFICATION (PRIORITY FOR COMPOSITION)]\nSCENE: "
    ++ pageDesc ++ ".\n\n" ++ generationRulesText
  if hasRefs then core ++ "\n\n" ++ referenceHandlingText else core

/-- The parts array `generatePageImage` sends: each reference URL is matched
against the data-URL regex and pushed as inline data only on a match
(`forEach` with the conditional push), then the text prompt is pushed last. -/
def requestParts (pageDesc : String) (cfg : StyleConfig) (refs : List String) :
    List GenPart :=
  refs.filterMap (fun url =>
    (dataUrlMatch url).map (fun md => GenPart.inlinePart md.1 md.2))
    ++ [GenPart.textPart (finalPromptText cfg pageDesc (refs.length > 0))]

/-- The body of the response-scanning loop of `generatePageImage`: a part
with present inline data whose `data` string is truthy (nonempty) yields the
returned data URL string. -/
def pickInline (p : RespPart) : Option String :=
  match p.inlineData with
  | some d =>
    if d.data != "" then some ("data:" ++ d.mimeType ++ ";base64," ++ d.data)
    else none
  | none => none

/-- `generatePageImage` from geminiService.ts, run against the model-call
oracle `call` (mapping the request parts to a response or a rejection).
Returns the parts sent and the settled result.  On a successful call the
first part with truthy inline data yields the returned data URL, otherwise
the function throws "No image data returned"; a rejected call is rethrown
unchanged by the catch. -/
def generatePageImage (pageDesc : String) (cfg : StyleConfig) (refs : List String)
    (call : List GenPart → Except String ImgResponse) :
    List GenPart × Except String String :=
  let parts := requestParts pageDesc cfg refs
  match call parts with
  | .error e => (parts, .error e)
  | .ok resp =>
    match resp.parts.findSome? pickInline with
    | some url => (parts, .ok url)
    | none => (parts, .error "No image data returned")

/-! ### Sequencer loop lemmas -/

theorem stepSuccess_uid (uid0 : String) (pid : Int) (url : String) (st : StoryboardData) :
    (stepSuccess uid0 pid url st).uid = st.uid := by
  unfold stepSuccess; split <;> rfl

theorem stepFailure_uid (uid0 : String) (pid : Int) (st : StoryboardData) :
    (stepFailure uid0 pid st).uid = st.uid := by
  unfold stepFailure; split <;> rfl

theorem seqLoop_reqs_length (uid0 gp : String) (fid : Option Int) (gen : Nat → Option String) :
    ∀ (pages : List StoryPage) (i : Nat) (m : Int → Option String) (st : StoryboardData),
      (seqLoop uid0 gp fid gen pages i m st).1.length = pages.length := by
  intro pages
  induction pages with
  | nil => intro i m st; rfl
  | cons q rest ih =>
    intro i m st
    cases hgen : gen i <;> simp [seqLoop, hgen, ih]

theorem seqLoop_states_head (uid0 gp : String) (fid : Option Int) (gen : Nat → Option String)
    (pages : List StoryPage) (i : Nat) (m : Int → Option String) (st : StoryboardData) :
    (seqLoop uid0 gp fid gen pages i m st).2[0]? = some st := by
  cases pages with
  | nil => rfl
  | cons q rest => cases hgen : gen i <;> simp [seqLoop, hgen]

theorem seqLoop_reqs_pages (uid0 gp : String) (fid : Option Int) (gen : Nat → Option String) :
    ∀ (pages : List StoryPage) (i : Nat) (m : Int → Option String) (st : StoryboardData),
      (seqLoop uid0 gp fid gen pages i m st).1.map (fun r => (r.pageId, r.desc))
        = pages.map (fun p => (p.id, p.action_description)) := by
  intro pages
  induction pages with
  | nil => intro i m st; rfl
  | cons q rest ih =>
    intro i m st
    cases hgen : gen i <;> simp [seqLoop, hgen, ih]

theorem seqLoop_req_get (uid0 gp : String) (fid : Option Int) (gen : Nat → Option String) :
    ∀ (pages : List StoryPage) (k i : Nat) (m : Int → Option String) (st : StoryboardData)
      (p : StoryPage), pages[k]? = some p →
      (seqLoop uid0 gp fid gen pages i m st).1[k]? =
        some ⟨p.id, p.action_description, gp,
          buildRefs fid (buildMap gen (pages.take k) i m) p.id⟩ := by
  intro pages
  induction pages with
  | nil => intro k i m st p h; simp at h
  | cons q rest ih =>
    intro k i m st p h
    cases k with
    | zero =>
      rw [List.getElem?_cons_zero] at h
      injection h with h
      subst h
      cases hgen : gen i <;> simp [seqLoop, hgen, buildMap]
    | succ k =>
      rw [List.getElem?_cons_succ] at h
      cases hgen : gen i with
      | none =>
        simp only [seqLoop, hgen, List.getElem?_cons_succ]
        rw [ih k (i + 1) m (stepFailure uid0 q.id st) p h]
        simp [List.take_succ_cons, buildMap, hgen]
      | some url =>
        simp only [seqLoop, hgen, List.getElem?_cons_succ]
        rw [ih k (i + 1) (mapSet m q.id url) (stepSuccess uid0 q.id url st) p h]
        simp [List.take_succ_cons, buildMap, hgen]

theorem seqLoop_states_step (uid0 gp : String) (fid : Option Int) (gen : Nat → Option String) :
    ∀ (pages : List StoryPage) (k i : Nat) (m : Int → Option String) (st : StoryboardData)
      (p : StoryPage), pages[k]? = some p →
      ∃ s, (seqLoop uid0 gp fid gen pages i m st).2[k]? = some s ∧
        (seqLoop uid0 gp fid gen pages i m st).2[k + 1]? =
          some (match gen (i + k) with
            | some url => stepSuccess uid0 p.id url s
            | none => stepFailure uid0 p.id s) := by
  intro pages
  induction pages with
  | nil => intro k i m st p h; simp at h
  | cons q rest ih =>
    intro k i m st p h
    cases k with
    | zero =>
      rw [List.getElem?_cons_zero] at h
      injection h with h
      subst h
      cases hgen : gen i with
      | some url =>
        refine ⟨st, ?_, ?_⟩
        · simp [seqLoop, hgen]
        · simp [seqLoop, hgen, seqLoop_states_head]
      | none =>
        refine ⟨st, ?_, ?_⟩
        · simp [seqLoop, hgen]
        · simp [seqLoop, hgen, seqLoop_states_head]
    | succ k =>
      rw [List.getElem?_cons_succ] at h
      have harith : i + 1 + k = i + (k + 1) := by omega
      cases hgen : gen i with
      | some url =>
        obtain ⟨s, h1, h2⟩ := ih k (i + 1) (mapSet m q.id url) (stepSuccess uid0 q.id url st) p h
        refine ⟨s, ?_, ?_⟩
        · simp [seqLoop, hgen, h1]
        · simp only [seqLoop, hgen, List.getElem?_cons_succ]
          rw [harith] at h2
          exact h2
      | none =>
        obtain ⟨s, h1, h2⟩ := ih k (i + 1) m (stepFailure uid0 q.id st) p h
        refine ⟨s, ?_, ?_⟩
        · simp [seqLoop, hgen, h1]
        · simp only [seqLoop, hgen, List.getElem?_cons_succ]
          rw [harith] at h2
          exact h2

theorem seqLoop_states_uid (uid0 gp : String) (fid : Option Int) (gen : Nat → Option String) :
    ∀ (pages : List StoryPage) (i : Nat) (m : Int → Option String) (st : StoryboardData),
      st.uid = uid0 → ∀ s ∈ (seqLoop uid0 gp fid gen pages i m st).2, s.uid = uid0 := by
  intro pages
  induction pages with
  | nil =>
    intro i m st h s hs
    simp [seqLoop] at hs
    subst hs; exact h
  | cons q rest ih =>
    intro i m st h s hs
    cases hgen : gen i with
    | some url =>
      simp only [seqLoop, hgen, List.mem_cons] at hs
      rcases hs with hs | hs
      · subst hs; exact h
      · exact ih (i + 1) (mapSet m q.id url) (stepSuccess uid0 q.id url st)
          (by rw [stepSuccess_uid]; exact h) s hs
    | none =>
      simp only [seqLoop, hgen, List.mem_cons] at hs
      rcases hs with hs | hs
      · subst hs; exact h
      · exact ih (i + 1) m (stepFailure uid0 q.id st)
          (by rw [stepFailure_uid]; exact h) s hs

theorem stepFailure_spec (uid0 : String) (pid : Int) (st : StoryboardData)
    (h : st.uid = uid0) :
    (stepFailure uid0 pid st).uid = st.uid ∧
    (stepFailure uid0 pid st).createdAt = st.createdAt ∧
    (stepFailure uid0 pid st).title = st.title ∧
    (stepFailure uid0 pid st).purpose = st.purpose ∧
    (stepFailure uid0 pid st).character_blueprint = st.character_blueprint ∧
    (stepFailure uid0 pid st).visual_style_guide = st.visual_style_guide ∧
    (stepFailure uid0 pid st).pages.length = st.pages.length ∧
    (∀ (j : Nat) (q : StoryPage), st.pages[j]? = some q → q.id ≠ pid →
      (stepFailure uid0 pid st).pages[j]? = some q) ∧
    (∀ (j : Nat) (q : StoryPage), st.pages[j]? = some q → q.id = pid →
      (stepFailure uid0 pid st).pages[j]? =
        some { q with is_generating := false, error := some "Failed to load image" }) := by
  unfold stepFailure
  rw [if_pos h]
  refine ⟨rfl, rfl, rfl, rfl, rfl, rfl, by simp, ?_, ?_⟩
  · intro j q hj hq
    simp [List.getElem?_map, hj, hq]
  · intro j q hj hq
    simp [List.getElem?_map, hj, hq]

/-! ### Sequencer claim theorems -/

theorem buildRefs_eq_claim_shape (fid : Option Int) (m : Int → Option String) (pid : Int) :
    buildRefs fid m pid =
      (match fid with
        | some f =>
          if pid ≠ f then
            match m f with
            | some u => [u]
            | none => []
          else []
        | none => []) ++
      (match m (pid - 1) with
        | some u => if fid ≠ some (pid - 1) then [u] else []
        | none => []) := by
  unfold buildRefs anchorRef contextRef
  have hanchor :
      (match fid with
        | some f =>
          match m f with
          | some url => if pid = f then [] else [url]
          | none => []
        | none => ([] : List String)) =
      (match fid with
        | some f =>
          if pid ≠ f then
            match m f with
            | some u => [u]
            | none => []
          else []
        | none => []) := by
    rcases fid with _ | f
    · rfl
    · rcases hmf : m f with _ | u
      · simp [hmf]
      · by_cases hp : pid = f <;> simp [hmf, hp]
  have hcontext :
      (match m (pid - 1) with
        | some url => if fid = some (pid - 1) then [] else [url]
        | none => ([] : List String)) =
      (match m (pid - 1) with
        | some u => if fid ≠ some (pid - 1) then [u] else []
        | none => []) := by
    rcases hm : m (pid - 1) with _ | v
    · rfl
    · by_cases hf : fid = some (pid - 1) <;> simp [hm, hf]
  rw [hanchor, hcontext]

/-- C1: for every story and every run of the image sequencer, the reference
list supplied with the request for page `k` consists of the first page image
(when it has been generated and the current page is not the first, compared
by page id) followed by the image of the immediately preceding page, looked
up by page id minus one (when it has been generated and is not the first
page image); the request for the first page carries an empty reference list.
This holds for arbitrary page id lists, consecutive or not. -/
theorem sequencer_reference_images (story : StoryboardData) (gen : Nat → Option String)
    (k : Nat) (p : StoryPage) (hk : story.pages[k]? = some p) :
    ((generateImagesSequence story gen).1[k]?).map (fun r => r.refs)
        = some (claimRefs story gen k p) ∧
    (k = 0 → ((generateImagesSequence story gen).1[k]?).map (fun r => r.refs) = some []) := by
  have hreq := seqLoop_req_get story.uid story.visual_style_guide
    ((story.pages.head?).map (fun q => q.id)) gen story.pages k 0 emptyMap story p hk
  have hmain :
      ((generateImagesSequence story gen).1[k]?).map (fun r => r.refs)
        = some (claimRefs story gen k p) := by
    unfold generateImagesSequence
    rw [hreq]
    simp only [Option.map_some']
    congr 1
    rw [buildRefs_eq_claim_shape]
    rfl
  refine ⟨hmain, ?_⟩
  intro hk0
  subst hk0
  rw [hmain]
  congr 1
  unfold claimRefs
  rcases hf : (story.pages.head?).map (fun q => q.id) with _ | fid <;>
    · simp only [hf, List.take_zero, buildMap, emptyMap]
      simp

/-- C1 witness: a concrete three-page story with ids 1, 2, 3 where every
call succeeds. -/
theorem sequencer_reference_images_witness :
    ((generateImagesSequence (sampleStory "u" 0 [1, 2, 3]) (fun i => some (toString i))).1[2]?).map
        (fun r => r.refs)
      = some (claimRefs (sampleStory "u" 0 [1, 2, 3]) (fun i => some (toString i)) 2
          (samplePage 3)) :=
  (sequencer_reference_images (sampleStory "u" 0 [1, 2, 3]) (fun i => some (toString i)) 2
    (samplePage 3) rfl).1

/-- C5: the image sequencer issues exactly one request per page, in the order
of the page list: the sequence of (page id, scene description) pairs of the
issued requests equals that of the pages.  The embedding is the sequential
awaited loop of the source, so request `k + 1` is only issued after request
`k` has settled. -/
theorem sequencer_one_request_per_page (story : StoryboardData) (gen : Nat → Option String) :
    (generateImagesSequence story gen).1.map (fun r => (r.pageId, r.desc))
      = story.pages.map (fun p => (p.id, p.action_description)) := by
  unfold generateImagesSequence
  exact seqLoop_reqs_pages story.uid story.visual_style_guide
    ((story.pages.head?).map (fun q => q.id)) gen story.pages 0 emptyMap story

/-- C2: when the call for page `k` rejects, the sequencer still issues one
request for every page of the story (the loop is never aborted), and the
state update for that step sets `is_generating := false` and
`error := "Failed to load image"` on exactly the pages carrying the failed
page id, leaving every other page and all story metadata unchanged. -/
theorem sequencer_failure_marks_one_page (story : StoryboardData) (gen : Nat → Option String)
    (k : Nat) (p : StoryPage) (hk : story.pages[k]? = some p) (hfail : gen k = none) :
    (generateImagesSequence story gen).1.length = story.pages.length ∧
    ∀ s s' : StoryboardData,
      (generateImagesSequence story gen).2[k]? = some s →
      (generateImagesSequence story gen).2[k + 1]? = some s' →
      s'.uid = s.uid ∧ s'.createdAt = s.createdAt ∧ s'.title = s.title ∧
      s'.purpose = s.purpose ∧ s'.character_blueprint = s.character_blueprint ∧
      s'.visual_style_guide = s.visual_style_guide ∧
      s'.pages.length = s.pages.length ∧
      (∀ (j : Nat) (q : StoryPage), s.pages[j]? = some q → q.id ≠ p.id →
        s'.pages[j]? = some q) ∧
      (∀ (j : Nat) (q : StoryPage), s.pages[j]? = some q → q.id = p.id →
        s'.pages[j]? =
          some { q with is_generating := false, error := some "Failed to load image" }) := by
  constructor
  · exact seqLoop_reqs_length story.uid story.visual_style_guide
      ((story.pages.head?).map (fun q => q.id)) gen story.pages 0 emptyMap story
  · intro s s' hs hs'
    obtain ⟨s0, h0, h1⟩ := seqLoop_states_step story.uid story.visual_style_guide
      ((story.pages.head?).map (fun q => q.id)) gen story.pages k 0 emptyMap story p hk
    have hss0 : s = s0 := by
      have := hs.symm.trans h0
      injection this
    subst hss0
    have hzero : (0 : Nat) + k = k := by omega
    rw [hzero, hfail] at h1
    have hs'eq : s' = stepFailure story.uid p.id s := by
      have := hs'.symm.trans h1
      injection this
    have hsuid : s.uid = story.uid := by
      refine seqLoop_states_uid story.uid story.visual_style_guide
        ((story.pages.head?).map (fun q => q.id)) gen story.pages 0 emptyMap story rfl s ?_
      exact List.getElem?_mem hs
    obtain ⟨hu, hc, ht, hp', hb, hv, hl, hother, hfailpg⟩ :=
      stepFailure_spec story.uid p.id s hsuid
    subst hs'eq
    exact ⟨hu, hc, ht, hp', hb, hv, hl, hother, hfailpg⟩

/-- C2 witness: a two-page story whose second call fails; the first page is
untouched by the failing step and the second page is marked failed. -/
theorem sequencer_failure_marks_one_page_witness :
    (generateImagesSequence (sampleStory "u" 0 [1, 2])
        (fun i => if i = 0 then some "img0" else none)).1.length
      = (sampleStory "u" 0 [1, 2]).pages.length :=
  (sequencer_failure_marks_one_page (sampleStory "u" 0 [1, 2])
    (fun i => if i = 0 then some "img0" else none) 1 (samplePage 2) rfl rfl).1

/-! ### Reference-list bounds and regeneration theorems -/

theorem anchorRef_length_le (fid : Option Int) (m : Int → Option String) (pid : Int) :
    (anchorRef fid m pid).length ≤ 1 := by
  unfold anchorRef
  rcases fid with _ | f
  · simp
  · rcases hm : m f with _ | u
    · simp [hm]
    · by_cases hp : pid = f <;> simp [hm, hp]

theorem contextRef_length_le (fid : Option Int) (m : Int → Option String) (pid : Int) :
    (contextRef fid m pid).length ≤ 1 := by
  unfold contextRef
  rcases hm : m (pid - 1) with _ | u
  · simp [hm]
  · by_cases hf : fid = some (pid - 1) <;> simp [hm, hf]

theorem contextRef_eq_nil_of_first (m : Int → Option String) (pid : Int) :
    contextRef (some (pid - 1)) m pid = [] := by
  unfold contextRef
  rcases hm : m (pid - 1) with _ | u <;> simp [hm]

theorem regenAnchor_length_le (story : StoryboardData) (pid : Int) :
    (regenAnchor story pid).length ≤ 1 := by
  unfold regenAnchor
  rcases hh : story.pages.head? with _ | fp
  · simp
  · rcases hi : fp.image_url with _ | u
    · simp [hi]
    · cases hb : (u != "" && fp.id != pid) <;> simp [hi, hb]

theorem regenContext_length_le (story : StoryboardData) (pid : Int) :
    (regenContext story pid).length ≤ 1 := by
  unfold regenContext
  rcases hfind : story.pages.find? (fun p => p.id = pid - 1) with _ | pp
  · simp [hfind]
  · rcases hi : pp.image_url with _ | u
    · simp [hfind, hi]
    · cases hb : (u != "" &&
        (match story.pages.head? with | some fp => pp.id != fp.id | none => true)) <;>
        simp [hfind, hi, hb]

theorem regenContext_eq_nil_of_first (story : StoryboardData) (pid : Int) (fp : StoryPage)
    (hfp : story.pages.head? = some fp) (hid : fp.id = pid - 1) :
    regenContext story pid = [] := by
  unfold regenContext
  rcases hfind : story.pages.find? (fun p => p.id = pid - 1) with _ | pp
  · simp [hfind]
  · have hpp : pp.id = pid - 1 := by
      have h := List.find?_some hfind
      simpa using h
    have hne : (pp.id != fp.id) = false := by
      rw [hpp, hid]
      simp
    rcases hi : pp.image_url with _ | u
    · simp [hfind, hi]
    · simp [hfind, hi, hfp, hne]

/-- C9: every image request carries at most two reference images, and the
first page image is never supplied twice: when the immediately preceding page
(by id minus one) is the first page, at most one reference is supplied.
Stated for every request of the sequencer and for the reference list of
per-page regeneration. -/
theorem reference_lists_bounded (story : StoryboardData) (gen : Nat → Option String)
    (k : Nat) (pid : Int) (r : ImgRequest)
    (hr : (generateImagesSequence story gen).1[k]? = some r) :
    (r.refs.length ≤ 2 ∧
      ((story.pages.head?).map (fun q => q.id) = some (r.pageId - 1) →
        r.refs.length ≤ 1)) ∧
    ((regenRefs story pid).length ≤ 2 ∧
      (∀ fp, story.pages.head? = some fp → fp.id = pid - 1 →
        (regenRefs story pid).length ≤ 1)) := by
  constructor
  · -- sequencer part: identify the request through the trace characterization
    have hklt : k < story.pages.length := by
      have h1 : k < (generateImagesSequence story gen).1.length :=
        (List.getElem?_eq_some.mp hr).1
      have h2 := seqLoop_reqs_length story.uid story.visual_style_guide
        ((story.pages.head?).map (fun q => q.id)) gen story.pages 0 emptyMap story
      unfold generateImagesSequence at h1
      omega
    have hp : story.pages[k]? = some story.pages[k] := List.getElem?_eq_some.mpr ⟨hklt, rfl⟩
    have hreq := seqLoop_req_get story.uid story.visual_style_guide
      ((story.pages.head?).map (fun q => q.id)) gen story.pages k 0 emptyMap story
      story.pages[k] hp
    have hrr : r = ⟨story.pages[k].id, story.pages[k].action_description,
        story.visual_style_guide,
        buildRefs ((story.pages.head?).map (fun q => q.id))
          (buildMap gen (story.pages.take k) 0 emptyMap) story.pages[k].id⟩ := by
      have := hr.symm.trans hreq
      injection this
    subst hrr
    constructor
    · simp only [buildRefs, List.length_append]
      have h1 := anchorRef_length_le ((story.pages.head?).map (fun q => q.id))
        (buildMap gen (story.pages.take k) 0 emptyMap) story.pages[k].id
      have h2 := contextRef_length_le ((story.pages.head?).map (fun q => q.id))
        (buildMap gen (story.pages.take k) 0 emptyMap) story.pages[k].id
      omega
    · intro hfid
      simp only at hfid
      simp only [buildRefs, List.length_append]
      rw [hfid, contextRef_eq_nil_of_first]
      have h1 := anchorRef_length_le (some (story.pages[k].id - 1))
        (buildMap gen (story.pages.take k) 0 emptyMap) story.pages[k].id
      simp only [List.length_nil]
      omega
  · constructor
    · simp only [regenRefs, List.length_append]
      have h1 := regenAnchor_length_le story pid
      have h2 := regenContext_length_le story pid
      omega
    · intro fp hfp hid
      simp only [regenRefs, List.length_append]
      rw [regenContext_eq_nil_of_first story pid fp hfp hid]
      have h1 := regenAnchor_length_le story pid
      simp only [List.length_nil]
      omega

/-- C9 witness: the single-page story issues a request with no references. -/
theorem reference_lists_bounded_witness :
    (ImgRequest.mk 1 "Wide shot of the room" "Soft watercolor" []).refs.length ≤ 2 :=
  (reference_lists_bounded (sampleStory "u" 0 [1]) (fun _ => none) 0 5
    ⟨1, "Wide shot of the room", "Soft watercolor", []⟩ rfl).1.1

/-- C7: per-page regeneration for a page id modifies only the pages carrying
that id — on success their `image_url` is set and `is_generating` cleared
(the loading step also cleared `error`), on failure `error` becomes
"Retry failed" and `is_generating` is cleared — while every other page and
all other story fields (uid, createdAt, title, purpose, character blueprint,
visual style guide) are unchanged; an id matching no page leaves the story
entirely unchanged (the loading map touches nothing). -/
theorem regenerate_frame_effect (story : StoryboardData) (pageId : Int)
    (outcome : Option String) (res : StoryboardData)
    (hres : res = handleRegenerateImage story pageId outcome) :
    res.uid = story.uid ∧ res.createdAt = story.createdAt ∧ res.title = story.title ∧
    res.purpose = story.purpose ∧ res.character_blueprint = story.character_blueprint ∧
    res.visual_style_guide = story.visual_style_guide ∧
    res.pages.length = story.pages.length ∧
    (∀ (j : Nat) (q : StoryPage), story.pages[j]? = some q → q.id ≠ pageId →
      res.pages[j]? = some q) ∧
    (∀ (j : Nat) (q : StoryPage), story.pages[j]? = some q → q.id = pageId →
      res.pages[j]? = some (match outcome with
        | some url => { q with image_url := some url, is_generating := false, error := none }
        | none => { q with is_generating := false, error := some "Retry failed" })) ∧
    ((∀ q ∈ story.pages, q.id ≠ pageId) → res = story) := by
  subst hres
  unfold handleRegenerateImage regenLoading
  rcases hfind : story.pages.find? (fun p => p.id = pageId) with _ | p0 <;>
    simp only [hfind]
  · -- no page carries the id: the loading map is the identity
    have hnone : ∀ q ∈ story.pages, ¬ q.id = pageId := by
      intro q hq h
      exact absurd (decide_eq_true h) (List.find?_eq_none.mp hfind q hq)
    have hmapid : story.pages.map (fun p =>
        if p.id = pageId then { p with is_generating := true, error := none } else p)
        = story.pages := by
      have hcg : ∀ q ∈ story.pages,
          (fun p => if p.id = pageId then { p with is_generating := true, error := none }
            else p) q = id q := by
        intro q hq
        simp [hnone q hq]
      rw [List.map_congr_left hcg, List.map_id]
    refine ⟨by trivial, by trivial, by trivial, by trivial, by trivial, by trivial,
      by simp [hmapid], ?_, ?_, ?_⟩
    · intro j q hj hq
      simp only [hmapid]
      exact hj
    · intro j q hj hq
      exact absurd hq (hnone q (List.getElem?_mem hj))
    · intro _
      simp only [hmapid]
  · rcases outcome with _ | url
    · -- failure branch
      refine ⟨by trivial, by trivial, by trivial, by trivial, by trivial, by trivial,
        by simp, ?_, ?_, ?_⟩
      · intro j q hj hq
        simp [List.getElem?_map, hj, hq]
      · intro j q hj hq
        simp [List.getElem?_map, hj, hq]
      · intro hall
        have hp0 : p0.id = pageId := by
          have h := List.find?_some hfind
          simpa using h
        exact absurd hp0 (hall p0 (List.mem_of_find?_eq_some hfind))
    · -- success branch
      refine ⟨by trivial, by trivial, by trivial, by trivial, by trivial, by trivial,
        by simp, ?_, ?_, ?_⟩
      · intro j q hj hq
        simp [List.getElem?_map, hj, hq]
      · intro j q hj hq
        simp [List.getElem?_map, hj, hq]
      · intro hall
        have hp0 : p0.id = pageId := by
          have h := List.find?_some hfind
          simpa using h
        exact absurd hp0 (hall p0 (List.mem_of_find?_eq_some hfind))

/-- C7 witness: regenerating page 2 of a two-page story leaves page 1
untouched. -/
theorem regenerate_frame_effect_witness :
    (handleRegenerateImage (sampleStory "u" 0 [1, 2]) 2 (some "img")).pages[0]?
      = some (samplePage 1) :=
  (regenerate_frame_effect (sampleStory "u" 0 [1, 2]) 2 (some "img") _
    rfl).2.2.2.2.2.2.2.1 0 (samplePage 1) rfl (by decide)

/-! ### Storage theorems -/

theorem uids_updateHistory_nodup (story : StoryboardData) (prev : List StoryboardData)
    (h : (uids prev).Nodup) : (uids (updateHistory story prev)).Nodup := by
  unfold updateHistory uids
  by_cases hex : prev.any (fun h => h.uid = story.uid)
  · simp only [hex, if_pos]
    simp only [List.map_map]
    have : ∀ x ∈ prev, ((fun h => h.uid) ∘ fun h => if h.uid = story.uid then story else h) x
        = (fun h : StoryboardData => h.uid) x := by
      intro x _
      by_cases hx : x.uid = story.uid <;> simp [hx]
    rw [List.map_congr_left this]
    exact h
  · simp only [hex, if_neg, Bool.false_eq_true, not_false_iff]
    simp only [List.map_cons, List.nodup_cons]
    constructor
    · intro hmem
      apply hex
      rw [List.any_eq_true]
      simp only [List.mem_map] at hmem
      obtain ⟨x, hx, hxeq⟩ := hmem
      exact ⟨x, hx, by simp [hxeq]⟩
    · exact h

theorem uids_dbPut_nodup (story : StoryboardData) (store : List StoryboardData)
    (h : (uids store).Nodup) : (uids (dbPut store story)).Nodup := by
  unfold dbPut uids
  by_cases hex : store.any (fun h => h.uid = story.uid)
  · simp only [hex, if_pos]
    simp only [List.map_map]
    have : ∀ x ∈ store, ((fun h => h.uid) ∘ fun h => if h.uid = story.uid then story else h) x
        = (fun h : StoryboardData => h.uid) x := by
      intro x _
      by_cases hx : x.uid = story.uid <;> simp [hx]
    rw [List.map_congr_left this]
    exact h
  · simp only [hex, if_neg, Bool.false_eq_true, not_false_iff]
    rw [List.map_append]
    simp only [List.map_cons, List.map_nil]
    rw [List.nodup_append]
    refine ⟨h, List.nodup_singleton _, ?_⟩
    intro a ha
    simp only [List.mem_singleton]
    intro hb
    apply hex
    rw [List.any_eq_true]
    simp only [uids, List.mem_map] at ha
    obtain ⟨x, hx, hxeq⟩ := ha
    exact ⟨x, hx, by simp [hxeq, hb]⟩

theorem foldl_dbPut_nodup (saves : List StoryboardData) :
    ∀ init : List StoryboardData, (uids init).Nodup →
      (uids (saves.foldl dbPut init)).Nodup := by
  induction saves with
  | nil => intro init h; exact h
  | cons s rest ih =>
    intro init h
    exact ih (dbPut init s) (uids_dbPut_nodup s init h)

theorem foldl_updateHistory_nodup (saves : List StoryboardData) :
    ∀ init : List StoryboardData, (uids init).Nodup →
      (uids (saves.foldl (fun acc s => updateHistory s acc) init)).Nodup := by
  induction saves with
  | nil => intro init h; exact h
  | cons s rest ih =>
    intro init h
    exact ih (updateHistory s init) (uids_updateHistory_nodup s init h)

/-- C3: `getHistoryFromDB` returns all storybooks persisted in the store,
sorted by creation time with the newest first: on a successful open and read
the result is a permutation of the store contents, and every adjacent pair is
in descending `createdAt` order. -/
theorem getHistoryFromDB_sorted_newest_first (env : DBEnv) (store : List StoryboardData)
    (hopen : env.openResult = Except.ok ()) (hread : env.readResult = Except.ok store) :
    ∃ l, getHistoryFromDB env = Except.ok l ∧ l.Perm store ∧
      ∀ i (hi : i + 1 < l.length),
        (l.get ⟨i + 1, hi⟩).createdAt ≤ (l.get ⟨i, Nat.lt_of_succ_lt hi⟩).createdAt := by
  refine ⟨sortByNewest store, ?_, ?_, ?_⟩
  · simp [getHistoryFromDB, hopen, hread]
  · exact List.mergeSort_perm store _
  · have hsorted := @List.sorted_mergeSort StoryboardData
      (fun a b : StoryboardData => decide (b.createdAt ≤ a.createdAt))
      (fun a b c hab hbc => by
        simp only [decide_eq_true_eq] at hab hbc ⊢
        exact le_trans hbc hab)
      (fun a b => by
        simp only [Bool.or_eq_true, decide_eq_true_eq]
        exact le_total b.createdAt a.createdAt)
      store
    rw [List.pairwise_iff_get] at hsorted
    intro i hi
    have := hsorted ⟨i, Nat.lt_of_succ_lt hi⟩ ⟨i + 1, hi⟩ (by simp)
    simpa using this

/-- C3 witness at a concrete environment with two stored storybooks. -/
theorem getHistoryFromDB_sorted_newest_first_witness :
    ∃ l, getHistoryFromDB
        ⟨Except.ok (), Except.ok [sampleStory "a" 1 [1], sampleStory "b" 2 [1]]⟩ = Except.ok l ∧
      l.Perm [sampleStory "a" 1 [1], sampleStory "b" 2 [1]] ∧
      ∀ i (hi : i + 1 < l.length),
        (l.get ⟨i + 1, hi⟩).createdAt ≤ (l.get ⟨i, Nat.lt_of_succ_lt hi⟩).createdAt :=
  getHistoryFromDB_sorted_newest_first _ _ rfl rfl

/-- C6: storybooks are keyed by uid.  Saving a story whose uid already exists
replaces the entry in place (the list keeps its length), and after any sequence
of saves — to the IndexedDB store via `put`, or to the in-memory history via
the persistence effect — a history starting with pairwise-distinct uids never
contains two storybooks with the same uid. -/
theorem saves_never_duplicate_uid (init saves : List StoryboardData) (story : StoryboardData)
    (h : (uids init).Nodup) :
    (uids (saves.foldl dbPut init)).Nodup ∧
    (uids (saves.foldl (fun acc s => updateHistory s acc) init)).Nodup ∧
    (init.any (fun h => h.uid = story.uid) = true →
      (dbPut init story).length = init.length ∧
      (updateHistory story init).length = init.length) := by
  refine ⟨foldl_dbPut_nodup saves init h, foldl_updateHistory_nodup saves init h, ?_⟩
  intro hex
  constructor
  · simp [dbPut, hex]
  · simp [updateHistory, hex]

/-- C6 witness: saving two stories with the same uid keeps uids distinct. -/
theorem saves_never_duplicate_uid_witness :
    (uids ([sampleStory "a" 1 [1], sampleStory "a" 2 [1], sampleStory "b" 3 [1]].foldl
      dbPut [])).Nodup :=
  (saves_never_duplicate_uid [] _ (sampleStory "a" 1 [1]) List.nodup_nil).1

/-- C8 counterexample: when the database opens but the `getAll` read request
fails, `getHistoryFromDB` propagates the error instead of resolving with the
empty list — the inner promise is returned from the `try` block without
`await`, so its rejection bypasses the `catch`. -/
theorem getHistoryFromDB_read_failure_propagates :
    getHistoryFromDB ⟨Except.ok (), Except.error "read failed"⟩
        = Except.error "read failed" ∧
    getHistoryFromDB ⟨Except.ok (), Except.error "read failed"⟩
        ≠ Except.ok [] :=
  ⟨rfl, fun h => Except.noConfusion h⟩

/-- C8 amended: if OPENING the database fails, `getHistoryFromDB` resolves
with the empty list; but if the read request itself fails the error
propagates to the caller; a successful open and read yields all stored
storybooks. -/
theorem getHistoryFromDB_error_behaviour (env : DBEnv) :
    (∀ e, env.openResult = Except.error e → getHistoryFromDB env = Except.ok []) ∧
    (∀ e, env.openResult = Except.ok () → env.readResult = Except.error e →
      getHistoryFromDB env = Except.error e) ∧
    (∀ store, env.openResult = Except.ok () → env.readResult = Except.ok store →
      ∃ l, getHistoryFromDB env = Except.ok l ∧ l.Perm store) := by
  refine ⟨?_, ?_, ?_⟩
  · intro e he; simp [getHistoryFromDB, he]
  · intro e ho hr; simp [getHistoryFromDB, ho, hr]
  · intro store ho hr
    exact ⟨sortByNewest store, by simp [getHistoryFromDB, ho, hr],
      List.mergeSort_perm store _⟩

/-- C8 amended witness: a failing open resolves with the empty history. -/
theorem getHistoryFromDB_error_behaviour_witness :
    getHistoryFromDB ⟨Except.error "open failed", Except.ok []⟩ = Except.ok [] :=
  (getHistoryFromDB_error_behaviour _).1 "open failed" rfl

/-! ### Storyboard requester theorems -/

/-- C4 counterexample: with an absent model response text — which the code
replaces by the empty-object fallback and `JSON.parse` turns into the empty
object — `generateStoryboard` succeeds but the returned storyboard has NO
character blueprint, NO visual style guide and NO page list, refuting the
claim that every successful result contains them. -/
theorem generateStoryboard_empty_response_lacks_fields :
    generateStoryboard (Except.ok none) jsonParseEmptyOnly "uid0" 5
      = Except.ok ⟨"uid0", 5, none, none, none, none, none⟩ := rfl

/-- C4 amended: `generateStoryboard` injects the freshly generated uid and
createdAt into whatever object the response text parses to and throws
"Failed to generate storyboard structure." when the model call or the JSON
parse fails; the blueprint, style guide and pages are present exactly when
the parsed response supplies them — an empty or absent response text is
parsed as the empty object and yields none of them. -/
theorem generateStoryboard_spec (callResult : Except String (Option String))
    (parse : String → Except String ParsedStoryboard) (freshUid : String) (now : Int) :
    (∀ e, callResult = Except.error e →
      generateStoryboard callResult parse freshUid now
        = Except.error "Failed to generate storyboard structure.") ∧
    (∀ t e, callResult = Except.ok t → parse (effectiveText t) = Except.error e →
      generateStoryboard callResult parse freshUid now
        = Except.error "Failed to generate storyboard structure.") ∧
    (∀ t d, callResult = Except.ok t → parse (effectiveText t) = Except.ok d →
      generateStoryboard callResult parse freshUid now
        = Except.ok ⟨freshUid, now, d.title, d.purpose, d.character_blueprint,
            d.visual_style_guide, d.pages⟩) ∧
    (parse emptyObjectText = Except.ok emptyParsed → callResult = Except.ok none →
      generateStoryboard callResult parse freshUid now
        = Except.ok ⟨freshUid, now, none, none, none, none, none⟩) := by
  refine ⟨?_, ?_, ?_, ?_⟩
  · intro e he
    simp [generateStoryboard, he]
  · intro t e hc hp
    simp [generateStoryboard, hc, hp]
  · intro t d hc hp
    simp [generateStoryboard, hc, hp]
  · intro hp hc
    simp [generateStoryboard, hc, effectiveText, hp, emptyParsed]

/-- C4 amended witness: a rejected model call throws the fixed error. -/
theorem generateStoryboard_spec_witness :
    generateStoryboard (Except.error "boom") jsonParseEmptyOnly "u" 0
      = Except.error "Failed to generate storyboard structure." :=
  (generateStoryboard_spec (Except.error "boom") jsonParseEmptyOnly "u" 0).1 "boom" rfl

/-! ### Page image generation theorems -/

/-- C10: `generatePageImage` is total over its reference list: a reference
URL failing the data-URL pattern is silently dropped (the inline parts are
exactly the matched references in order, one per matching reference,
followed by the single text part), and the settled result is either the
rethrown call rejection, the error "No image data returned" when the call
succeeds without truthy inline data, or the data URL built from the first
truthy inline-data part — a string of the shape data, mime, base64 marker,
payload. -/
theorem generatePageImage_total (pageDesc : String) (cfg : StyleConfig)
    (refs : List String) (call : List GenPart → Except String ImgResponse) :
    ((generatePageImage pageDesc cfg refs call).1 =
      refs.filterMap (fun url =>
        (dataUrlMatch url).map (fun md => GenPart.inlinePart md.1 md.2))
        ++ [GenPart.textPart (finalPromptText cfg pageDesc (refs.length > 0))]) ∧
    ((generatePageImage pageDesc cfg refs call).1.length =
      refs.countP (fun u => (dataUrlMatch u).isSome) + 1) ∧
    (∀ e, call (generatePageImage pageDesc cfg refs call).1 = Except.error e →
      (generatePageImage pageDesc cfg refs call).2 = Except.error e) ∧
    (∀ resp, call (generatePageImage pageDesc cfg refs call).1 = Except.ok resp →
      resp.parts.findSome? pickInline = none →
      (generatePageImage pageDesc cfg refs call).2
        = Except.error "No image data returned") ∧
    (∀ resp url, call (generatePageImage pageDesc cfg refs call).1 = Except.ok resp →
      resp.parts.findSome? pickInline = some url →
      (generatePageImage pageDesc cfg refs call).2 = Except.ok url) ∧
    (∀ s, (generatePageImage pageDesc cfg refs call).2 = Except.ok s →
      ∃ mime data, s = "data:" ++ mime ++ ";base64," ++ data) := by
  have hparts : (generatePageImage pageDesc cfg refs call).1
      = requestParts pageDesc cfg refs := by
    unfold generatePageImage
    cases hc : call (requestParts pageDesc cfg refs) with
    | error e => simp only [hc]
    | ok resp =>
      simp only [hc]
      cases hf : resp.parts.findSome? pickInline <;> simp only [hf]
  refine ⟨?_, ?_, ?_, ?_, ?_, ?_⟩
  · rw [hparts]; rfl
  · rw [hparts]
    unfold requestParts
    simp [List.length_filterMap_eq_countP]
  · intro e he
    rw [hparts] at he
    unfold generatePageImage
    simp only [he]
  · intro resp hc hf
    rw [hparts] at hc
    unfold generatePageImage
    simp only [hc, hf]
  · intro resp url hc hf
    rw [hparts] at hc
    unfold generatePageImage
    simp only [hc, hf]
  · intro s hs
    simp only [generatePageImage] at hs
    split at hs
    · simp at hs
    · split at hs
      · rename_i url hfind
        have hsu : url = s := by simpa using hs
        subst hsu
        obtain ⟨p, _, hpick⟩ := List.exists_of_findSome?_eq_some hfind
        unfold pickInline at hpick
        rcases hd : p.inlineData with _ | d
        · rw [hd] at hpick; simp at hpick
        · rw [hd] at hpick
          by_cases hdata : (d.data != "") = true
          · simp only [hdata, if_true] at hpick
            injection hpick with hpick
            exact ⟨d.mimeType, d.data, hpick.symm⟩
          · simp only [hdata, if_false] at hpick
            simp at hpick
      · simp at hs

/-- C10 witness: a rejected model call is rethrown unchanged. -/
theorem generatePageImage_total_witness :
    (generatePageImage "Wide shot" ⟨some "style", none, VisualComplexity.BALANCED⟩
      ["not a data url"] (fun _ => Except.error "quota")).2 = Except.error "quota" :=
  (generatePageImage_total "Wide shot" ⟨some "style", none, VisualComplexity.BALANCED⟩
    ["not a data url"] (fun _ => Except.error "quota")).2.2.1 "quota" rfl

end SpectraTales
